import Mathlib

/-!
Shallow embedding of the server core of lf-open-file-transfer
(src/main/main.go) for the claims under verification.

Modelling conventions:
* Go `int`/`int64` quantities that are nonnegative in every reachable
  scenario of the claims (file sizes, chunk counts, offsets, byte counts)
  are embedded as `Nat`; the values involved (at most a few hundred GiB)
  are far below 2^63, so Go two's-complement arithmetic agrees with `Nat`
  arithmetic on them, and Go integer division on nonnegative operands is
  `Nat` division.
* Go maps are embedded as association lists. Insertion prepends (the new
  binding shadows any older one), deletion filters, lookup takes the first
  binding — observationally the Go map operations used by the code.
* File-system state is explicit: the manifest sidecar that is on disk for
  the one `(sessionID, fileName)` upload under consideration is an
  `Option ResumableFileConfig` — `some cfg` when the sidecar's bytes parse
  to `cfg`, `none` when the next `loadResumableConfig` would fail (file
  absent, or truncated/partial after an interrupted `os.WriteFile`); every
  caller of `loadResumableConfig` treats those two failures identically
  (404), so this load-observable view is adequate for all modelled paths.
  The backing file's bytes are a `List Nat`. Fallible disk operations
  (chunk write + fsync, manifest delete, file create, truncate) are driven
  by explicit Boolean outcome flags; the manifest save, which the source
  performs with `os.WriteFile` (open with `O_TRUNC`, then write), gets a
  three-valued outcome distinguishing an open failure (old sidecar intact)
  from a write failure after the truncation (sidecar destroyed). Thus
  every error path of the Go code is a branch of the Lean function.
* MD5 and SHA-256 are abstracted as function parameters
  `List Nat → String` (hex digest of a byte sequence); no claim depends on
  the value of a digest, only on which digest function the code selects
  and on equality of digests.
* `crypto` timestamps (`createdAt`/`updatedAt`) and the informational
  random `uploadID` carry no information the claims mention and are
  omitted from the embedded records.
-/

namespace LFTransfer

/-- Go map lookup on an association list: first binding wins. -/
def lookupA {α β : Type} [DecidableEq α] : List (α × β) → α → Option β
  | [], _ => none
  | (k, v) :: rest, i => if k = i then some v else lookupA rest i

/-- Go map insertion: the new binding shadows any older one. -/
def insertA {α β : Type} (k : α) (v : β) (m : List (α × β)) : List (α × β) :=
  (k, v) :: m

/-- Go map deletion: drop every binding of the key. -/
def eraseA {α β : Type} [DecidableEq α] (k : α) (m : List (α × β)) : List (α × β) :=
  m.filter (fun p => decide (p.1 ≠ k))

/-- Pointwise update of one key's value, as the Go code does through the
`*ChunkInfo` pointer stored in the map. -/
def updateA {α β : Type} [DecidableEq α] (k : α) (f : β → β) (m : List (α × β)) :
    List (α × β) :=
  m.map (fun p => if p.1 = k then (p.1, f p.2) else p)

/-- Positioned write into a byte list, the effect of `File.WriteAt` within a
pre-sized file (`main.go` `writeChunkSafely` and the WS chunk writes). -/
def writeAt (file : List Nat) (data : List Nat) (offset : Nat) : List Nat :=
  file.take offset ++ data ++ file.drop (offset + data.length)

/-- Constant `ChunkSize` (`main.go` line 156): 5 MiB. -/
def ChunkSize : Nat := 1024 * 1024 * 5

/-- Constant `MaxFileSize` (`main.go` line 153): 100 GiB. In the source it
is used only as the WebSocket read limit (`conn.SetReadLimit`). -/
def MaxFileSize : Nat := 100 * 1024 * 1024 * 1024

/-- Temp-file path `filepath.Join(TempDir, sessionID+"_"+fileName)`. -/
def tempFilePathOf (sessionID fileName : String) : String :=
  "../temp/" ++ sessionID ++ "_" ++ fileName

/-- Manifest path `filepath.Join(ConfigDir, sessionID+"_"+fileName+".json")`. -/
def configPathOf (sessionID fileName : String) : String :=
  "../temp/" ++ sessionID ++ "_" ++ fileName ++ ".json"

/-- Struct `ChunkInfo` (`main.go` lines 106-112). -/
structure ChunkInfo where
  chunkIndex : Nat
  size : Nat
  hash : String
  completed : Bool
  offset : Nat
deriving DecidableEq

/-- Struct `ResumableFileConfig` (`main.go` lines 92-103); the `chunks` map
is keyed by the decimal chunk index (`strconv.Itoa(i)`), embedded as the
index itself. Timestamps omitted. -/
structure ResumableFileConfig where
  fileName : String
  fileSize : Nat
  fileHash : String
  chunkSize : Nat
  totalChunks : Nat
  chunks : List (Nat × ChunkInfo)
  tempFilePath : String
deriving DecidableEq

/-- Struct `FileInfo` (`main.go` lines 54-62), restricted to the fields the
upload paths populate (`Name`, `Size`, `TempFilePath`). -/
structure FileInfo where
  name : String
  size : Nat
  tempFilePath : String
deriving DecidableEq

/-- Server state restricted to one `(sessionID, fileName)` resumable upload:
the session's `ReceivedFiles` map, the on-disk manifest for this upload
(`none` when the `.json` sidecar is absent), and the backing file's bytes. -/
structure UploadState where
  receivedFiles : List (String × FileInfo)
  manifest : Option ResumableFileConfig
  backing : List Nat
deriving DecidableEq

/-- Total chunk count `int((req.FileSize + ChunkSize - 1) / ChunkSize)`
(`main.go` line 1103). -/
def totalChunksOf (fileSize : Nat) : Nat :=
  (fileSize + ChunkSize - 1) / ChunkSize

/-- One entry of the manifest-initialisation loop (`main.go` lines
1125-1139): the last chunk gets the remainder, all others `ChunkSize`. -/
def chunkInfoAt (fileSize totalChunks i : Nat) : ChunkInfo :=
  { chunkIndex := i
    size := if i = totalChunks - 1 then fileSize - i * ChunkSize else ChunkSize
    hash := ""
    completed := false
    offset := i * ChunkSize }

/-- The fresh manifest built by `startResumableUpload` (`main.go` lines
1112-1139). -/
def buildConfig (sessionID fileName : String) (fileSize : Nat) (fileHash : String) :
    ResumableFileConfig :=
  { fileName := fileName
    fileSize := fileSize
    fileHash := fileHash
    chunkSize := ChunkSize
    totalChunks := totalChunksOf fileSize
    chunks := (List.range (totalChunksOf fileSize)).map
      (fun i => (i, chunkInfoAt fileSize (totalChunksOf fileSize) i))
    tempFilePath := tempFilePathOf sessionID fileName }

/-- The normal-path JSON body of `startResumableUpload` (`main.go` lines
123-129, 1172-1178); the random `uploadID` is omitted. -/
structure UploadStartResponse where
  chunkSize : Nat
  totalChunks : Nat
  missingChunks : List Nat
  configPath : String
deriving DecidableEq

/-- The short-circuit JSON body returned when the file already exists in the
session (`main.go` lines 1081-1094). `uploadID` is the session ID there;
the synthetic config has `totalChunks = 1`, `chunkSize = existing size`,
and a single chunk `"0"` marked completed. -/
structure AlreadyCompleteResponse where
  uploadID : String
  fileName : String
  fileSize : Nat
  totalChunks : Nat
  chunkSize : Nat
  chunkZeroCompleted : Bool
  tempFilePath : String
  progress : Nat
  missingChunks : List Nat
  completed : Bool
deriving DecidableEq

/-- Result of `startResumableUpload`. -/
inductive StartResult where
  | alreadyComplete (resp : AlreadyCompleteResponse)
  | started (resp : UploadStartResponse)
  | saveConfigFailed
  | createFileFailed
  | truncateFailed
deriving DecidableEq

/-- Predicate: the start call took the normal path and returned 200 with a
fresh-manifest response. -/
def StartResult.isStarted : StartResult → Bool
  | .started _ => true
  | _ => false

/-- Outcome of one `saveResumableConfig` call (`main.go` lines 1479-1486).
The source saves with `os.WriteFile`, which opens the sidecar with
`O_WRONLY|O_CREATE|O_TRUNC` and then writes: if the open itself fails the
old sidecar is untouched, but if the write (or close) fails after the open
has already truncated the file, the sidecar is left truncated/partial and
the next `loadResumableConfig` fails. -/
inductive SaveOutcome where
  | ok
  | openFailed
  | writeFailed
deriving DecidableEq

/-- The sidecar as the next load would see it after a `saveResumableConfig`
call with the given outcome: `ok` → the new config; `openFailed` → the old
sidecar state; `writeFailed` → a truncated file that no longer parses. -/
def savedManifest (outcome : SaveOutcome)
    (old : Option ResumableFileConfig) (new : ResumableFileConfig) :
    Option ResumableFileConfig :=
  match outcome with
  | .ok => some new
  | .openFailed => old
  | .writeFailed => none

/-- Outcomes of the fallible disk operations performed by
`startResumableUpload`: manifest save (`os.WriteFile`), `os.Create`,
`Truncate`. -/
structure StartDisk where
  save : SaveOutcome
  createOk : Bool
  truncateOk : Bool
deriving DecidableEq

/-- All-success disk outcomes for a start call. -/
def StartDisk.allOk : StartDisk := ⟨SaveOutcome.ok, true, true⟩

/-- Function `startResumableUpload` (`main.go` lines 1068-1181).

If `fileName` is already in the session's `ReceivedFiles`, the handler
returns the synthetic already-complete body and touches nothing. Otherwise
it builds a fresh all-incomplete manifest (it never loads a pre-existing
one), saves it, creates the backing file (`os.Create` truncates to empty)
and pre-sizes it with `Truncate(fileSize)` (zero bytes), and returns the
full missing list `[0 .. totalChunks-1]`. -/
def startResumableUpload (disk : StartDisk) (st : UploadState)
    (sessionID fileName : String) (fileSize : Nat) (fileHash : String) :
    StartResult × UploadState :=
  match lookupA st.receivedFiles fileName with
  | some existing =>
      (.alreadyComplete
        { uploadID := sessionID
          fileName := fileName
          fileSize := existing.size
          totalChunks := 1
          chunkSize := existing.size
          chunkZeroCompleted := true
          tempFilePath := existing.tempFilePath
          progress := 100
          missingChunks := []
          completed := true }, st)
  | none =>
      let cfg := buildConfig sessionID fileName fileSize fileHash
      if disk.save ≠ SaveOutcome.ok then
        (.saveConfigFailed,
         { st with manifest := savedManifest disk.save st.manifest cfg })
      else if disk.createOk = false then
        (.createFileFailed, { st with manifest := some cfg })
      else if disk.truncateOk = false then
        (.truncateFailed, { st with manifest := some cfg, backing := [] })
      else
        (.started
          { chunkSize := ChunkSize
            totalChunks := cfg.totalChunks
            missingChunks := List.range cfg.totalChunks
            configPath := configPathOf sessionID fileName },
         { st with manifest := some cfg
                   backing := List.replicate fileSize 0 })

/-- Function `calculateProgress` (`main.go` lines 1504-1517). The Go value
is a `float64`; it is embedded as the exact rational
`completed / total * 100` (the claims use progress only up to equality of
values produced by this same function). -/
def calculateProgress (config : ResumableFileConfig) : Rat :=
  if config.totalChunks = 0 then 0
  else
    ((config.chunks.filter (fun p => p.2.completed)).length : Rat)
      / (config.totalChunks : Rat) * 100

/-- Loop of `uploadChunk` (`main.go` lines 1291-1299): all chunks completed? -/
def allChunksCompleted (config : ResumableFileConfig) : Bool :=
  config.chunks.all (fun p => p.2.completed)

/-- Struct `ChunkUploadResponse` (`main.go` lines 145-150); the optional
`missingChunks` field is never set by `uploadChunk` and is omitted. -/
structure ChunkUploadResponse where
  chunkIndex : Nat
  completed : Bool
  progress : Rat
deriving DecidableEq

/-- Result of `uploadChunk`. Parameter-decoding failures (missing form
fields, unreadable multipart part) precede all modelled state and are not
embedded; the chunk bytes arrive as an argument. -/
inductive ChunkResult where
  | notFound
  | outOfRange
  | sizeMismatch
  | writeFailed
  | saveFailed
  | ok (resp : ChunkUploadResponse)
deriving DecidableEq

/-- Outcomes of the fallible disk operations of `uploadChunk`:
`writeChunkSafely` (open + `WriteAt` of the full length + `Sync`), manifest
save (`os.WriteFile`, see `SaveOutcome`), and the best-effort manifest
delete on completion. -/
structure ChunkDisk where
  writeOk : Bool
  save : SaveOutcome
  removeOk : Bool
deriving DecidableEq

/-- All-success disk outcomes for a chunk call. -/
def ChunkDisk.allOk : ChunkDisk := ⟨true, SaveOutcome.ok, true⟩

/-- Function `uploadChunk` (`main.go` lines 1184-1346), for the upload
identified by `(sessionID, fileName)` whose on-disk manifest and backing
file live in `st`.

Order of the source: load manifest (404 if absent) → look up the chunk
(400 if out of range) → if already completed, no-op 200 with
`completed=false` and current progress → size check (400) → MD5 of the
bytes → `writeChunkSafely` at `chunk.offset` (500 on failure) → mark
completed, save manifest via `os.WriteFile` (500 on failure; the sidecar
is then the old one if the open failed, or a truncated non-parsing file if
the write failed after the `O_TRUNC` open) → if now all completed:
register into `ReceivedFiles`, delete the manifest (best-effort),
broadcast → 200. -/
def uploadChunk (md5Hex : List Nat → String) (disk : ChunkDisk)
    (st : UploadState) (fileName : String) (chunkIndex : Nat)
    (bytes : List Nat) : ChunkResult × UploadState :=
  match st.manifest with
  | none => (.notFound, st)
  | some config =>
    match lookupA config.chunks chunkIndex with
    | none => (.outOfRange, st)
    | some chunkInfo =>
      if chunkInfo.completed then
        (.ok { chunkIndex := chunkIndex
               completed := false
               progress := calculateProgress config }, st)
      else if bytes.length ≠ chunkInfo.size then
        (.sizeMismatch, st)
      else if disk.writeOk = false then
        (.writeFailed, st)
      else
        let backing' := writeAt st.backing bytes chunkInfo.offset
        let config' := { config with
          chunks := updateA chunkIndex
            (fun ci => { ci with hash := md5Hex bytes, completed := true })
            config.chunks }
        if disk.save ≠ SaveOutcome.ok then
          (.saveFailed,
           { st with manifest := savedManifest disk.save (some config) config'
                     backing := backing' })
        else if allChunksCompleted config' then
          (.ok { chunkIndex := chunkIndex
                 completed := true
                 progress := calculateProgress config' },
           { receivedFiles := insertA fileName
               { name := fileName
                 size := config'.fileSize
                 tempFilePath := config'.tempFilePath } st.receivedFiles
             manifest := if disk.removeOk then none else some config'
             backing := backing' })
        else
          (.ok { chunkIndex := chunkIndex
                 completed := false
                 progress := calculateProgress config' },
           { st with manifest := some config', backing := backing' })

/-- Outcome of `verifyFileHash` (`main.go` lines 1520-1552): the digest
function is selected by the hex length of the presented hash (32 → MD5,
64 → SHA-256, anything else is an unsupported-length error), then compared
with the recomputed digest of the whole file. -/
inductive HashCheck where
  | ok
  | mismatch
  | unsupportedLength
deriving DecidableEq

/-- Function `verifyFileHash` (`main.go` lines 1520-1552) over the backing
file's bytes, abstracting the two digest functions. -/
def verifyFileHash (md5Hex sha256Hex : List Nat → String)
    (fileBytes : List Nat) (expectedHash : String) : HashCheck :=
  if expectedHash.length = 32 then
    if md5Hex fileBytes = expectedHash then .ok else .mismatch
  else if expectedHash.length = 64 then
    if sha256Hex fileBytes = expectedHash then .ok else .mismatch
  else .unsupportedLength

/-- Result of `completeUpload`. `done` carries the `fileSize` of the 200
body; `alreadyDone` is the 200 taken from the existing `ReceivedFiles`
entry. -/
inductive CompleteResult where
  | notFound
  | alreadyDone (fileSize : Nat)
  | incomplete (incompleteChunks : Nat)
  | integrityFailed
  | done (fileSize : Nat)
deriving DecidableEq

/-- Function `completeUpload` (`main.go` lines 1400-1477).

Order of the source: load manifest FIRST (404 `"上传配置不存在"` if the
`.json` sidecar is absent) → if the file is already in `ReceivedFiles`,
200 with the existing size → count incomplete chunks (400 if any) → if
`fileHash` non-empty, `verifyFileHash` (400 on any failure, nothing
registered) → register into `ReceivedFiles` → 200. It never deletes the
manifest. -/
def completeUpload (md5Hex sha256Hex : List Nat → String)
    (st : UploadState) (fileName : String) : CompleteResult × UploadState :=
  match st.manifest with
  | none => (.notFound, st)
  | some config =>
    match lookupA st.receivedFiles fileName with
    | some existing => (.alreadyDone existing.size, st)
    | none =>
      let incompleteChunks :=
        (config.chunks.filter (fun p => !p.2.completed)).length
      if incompleteChunks > 0 then
        (.incomplete incompleteChunks, st)
      else if config.fileHash ≠ "" ∧
          verifyFileHash md5Hex sha256Hex st.backing config.fileHash ≠ .ok then
        (.integrityFailed, st)
      else
        let info : FileInfo :=
          { name := fileName
            size := config.fileSize
            tempFilePath := config.tempFilePath }
        (.done config.fileSize,
         { st with receivedFiles := insertA fileName info st.receivedFiles })

/-- Struct `ReceivingFile` (`main.go` lines 82-89). The `TempFile` handle is
embedded as the bytes currently on disk in that temp file. -/
structure ReceivingFile where
  name : String
  size : Nat
  chunks : List (Nat × List Nat)
  totalChunks : Nat
  receivedChunks : Nat
  fileBytes : List Nat
deriving DecidableEq

/-- The fields of a `file_chunk` WebSocket message (`main.go` Message
struct, lines 65-79) that `readPump` reads; `data` already converted from
the JSON number array to bytes. -/
structure FileChunkMsg where
  name : String
  size : Nat
  data : List Nat
  totalChunks : Nat
  currentChunk : Nat
deriving DecidableEq

/-- Session state touched by the `file_chunk` branch of `readPump`:
`ReceivingFiles` and `ReceivedFiles`. -/
structure WsSession where
  receivingFiles : List (String × ReceivingFile)
  receivedFiles : List (String × FileInfo)
deriving DecidableEq

/-- Result of one `file_chunk` message: the updated session, and whether a
`file` completion frame was broadcast. -/
structure FileChunkStep where
  session : WsSession
  broadcastFile : Bool
deriving DecidableEq

/-- The fresh receiver created on the first chunk for a name (`main.go`
lines 812-837): temp file created and pre-sized with zeros
(`Truncate(msg.Size)`), `TotalChunks := msg.TotalChunks`, counter at
zero. -/
def freshReceiver (msg : FileChunkMsg) : ReceivingFile :=
  { name := msg.name
    size := msg.size
    chunks := []
    totalChunks := msg.totalChunks
    receivedChunks := 0
    fileBytes := List.replicate msg.size 0 }

/-- The `file_chunk` branch of `readPump` (`main.go` lines 807-959), success
path of its disk operations.

On first chunk for `name`: `freshReceiver`. On a later chunk: if the stored
`TotalChunks` is zero and the message carries a positive one, adopt it.
Then store the bytes in the in-memory `Chunks` map under
`msg.CurrentChunk`, increment `ReceivedChunks` unconditionally, and write
the bytes at `offset = CurrentChunk * ChunkSize` (chunk 0 is written at 0
by the first branch of the Go `if`, which is the same offset the formula
gives). Completion is `ReceivedChunks == TotalChunks` (or, when
`TotalChunks` is zero, `ReceivedChunks == ceil(Size / ChunkSize)`)
together with `ReceivedChunks > 0`; it registers the file into
`ReceivedFiles`, broadcasts a `file` frame, and deletes the receiver
entry. -/
def handleFileChunk (sessionID : String) (sess : WsSession)
    (msg : FileChunkMsg) : FileChunkStep :=
  let rf0 : ReceivingFile :=
    match lookupA sess.receivingFiles msg.name with
    | none => freshReceiver msg
    | some rf =>
        if rf.totalChunks = 0 ∧ msg.totalChunks > 0 then
          { rf with totalChunks := msg.totalChunks }
        else rf
  let rf1 : ReceivingFile :=
    { rf0 with
      chunks := insertA msg.currentChunk msg.data rf0.chunks
      receivedChunks := rf0.receivedChunks + 1
      fileBytes := writeAt rf0.fileBytes msg.data (msg.currentChunk * ChunkSize) }
  let expectedChunks : Nat :=
    if rf1.totalChunks > 0 then rf1.totalChunks
    else (rf1.size + ChunkSize - 1) / ChunkSize
  if rf1.receivedChunks = expectedChunks ∧ rf1.receivedChunks > 0 then
    let info : FileInfo :=
      { name := rf1.name
        size := rf1.size
        tempFilePath := tempFilePathOf sessionID rf1.name }
    { session :=
        { receivingFiles := eraseA rf1.name sess.receivingFiles
          receivedFiles := insertA rf1.name info sess.receivedFiles }
      broadcastFile := true }
  else
    { session :=
        { sess with receivingFiles := insertA msg.name rf1 sess.receivingFiles }
      broadcastFile := false }

/-- Session registry entry (`main.go` Session struct, lines 37-45). The
client set is abstracted to its cardinality (claims only inspect the
count); `FileInfo` (the legacy single-file field) is kept as an option. -/
structure SessionEntry where
  clients : Nat
  textContent : String
  fileInfo : Option FileInfo
  receivedFiles : List (String × FileInfo)
  receivingFiles : List (String × ReceivingFile)
deriving DecidableEq

/-- The empty session constructed by `GetOrCreateSession` (`main.go` lines
322-327). -/
def freshSession : SessionEntry :=
  { clients := 0
    textContent := ""
    fileInfo := none
    receivedFiles := []
    receivingFiles := [] }

/-- The registry `store.sessions` (`main.go` lines 31-34, 167-169). -/
def Registry : Type := List (String × SessionEntry)

/-- Method `GetOrCreateSession` (`main.go` lines 314-330): return the
existing entry or insert a fresh zero-client one. -/
def GetOrCreateSession (reg : Registry) (sessionID : String) :
    SessionEntry × Registry :=
  match lookupA reg sessionID with
  | some session => (session, reg)
  | none => (freshSession, insertA sessionID freshSession reg)

/-- Handler `getSessionHistory` (`main.go` lines 1047-1065): a pure read
through `GetOrCreateSession`; only its registry effect is modelled. -/
def getSessionHistory (reg : Registry) (sessionID : String) : Registry :=
  (GetOrCreateSession reg sessionID).2

/-- Client registration step of `handleWebSocket` (`main.go` lines
583-588): `GetOrCreateSession` then add the client. -/
def addClient (reg : Registry) (sessionID : String) : Registry :=
  let p := GetOrCreateSession reg sessionID
  updateA sessionID (fun s => { s with clients := s.clients + 1 }) p.2

/-- Method `RemoveClient` (`main.go` lines 333-430). If the session exists
and the client is a member (abstracted: `clients > 0`), remove it; when the
client count reaches zero, clean the session's resources — close and
unlink receiving files and clear the map, unlink received files and clear
the map, sweep `<sessionID>_`-prefixed temp files — but KEEP the registry
entry itself (the source never deletes `store.sessions[sessionID]`). -/
def RemoveClient (reg : Registry) (sessionID : String) : Registry :=
  match lookupA reg sessionID with
  | none => reg
  | some session =>
      if session.clients = 0 then reg
      else
        let session' := { session with clients := session.clients - 1 }
        let session'' :=
          if session'.clients = 0 then
            { session' with
              receivingFiles := []
              receivedFiles := []
              fileInfo := (match session'.fileInfo with
                | none => none
                | some fi => some { fi with tempFilePath := "" }) }
          else session'
        updateA sessionID (fun _ => session'') reg

/-! ## Helper lemmas -/

/-- Looking a key up after a pointwise update of that key maps the stored
value. -/
theorem lookupA_updateA {α β : Type} [DecidableEq α] (k : α) (f : β → β)
    (m : List (α × β)) :
    lookupA (updateA k f m) k = (lookupA m k).map f := by
  induction m with
  | nil => rfl
  | cons p rest ih =>
      obtain ⟨a, b⟩ := p
      simp only [updateA, List.map_cons] at ih ⊢
      by_cases h : a = k
      · subst h
        rw [if_pos rfl]
        simp [lookupA]
      · rw [if_neg h]
        simp only [lookupA, if_neg h]
        exact ih

/-- Lookup distributes over append, first list winning. -/
theorem lookupA_append {α β : Type} [DecidableEq α] (l₁ l₂ : List (α × β))
    (k : α) :
    lookupA (l₁ ++ l₂) k =
      match lookupA l₁ k with
      | some v => some v
      | none => lookupA l₂ k := by
  induction l₁ with
  | nil => rfl
  | cons p rest ih =>
      obtain ⟨a, b⟩ := p
      by_cases h : a = k <;> simp [lookupA, h, ih]

/-- Lookup in the graph of a function over `List.range n`, outside the
range. -/
theorem lookupA_range_map_ge {β : Type} (g : Nat → β) :
    ∀ n i : Nat, n ≤ i →
      lookupA ((List.range n).map (fun j => (j, g j))) i = none := by
  intro n
  induction n with
  | zero => intro i _; rfl
  | succ n ih =>
      intro i hi
      rw [List.range_succ, List.map_append, lookupA_append]
      rw [ih i (by omega)]
      simp only [List.map_cons, List.map_nil, lookupA]
      rw [if_neg (by omega : ¬ n = i)]

/-- Lookup in the graph of a function over `List.range n`, inside the
range. -/
theorem lookupA_range_map {β : Type} (g : Nat → β) :
    ∀ n i : Nat, i < n →
      lookupA ((List.range n).map (fun j => (j, g j))) i = some (g i) := by
  intro n
  induction n with
  | zero => intro i hi; omega
  | succ n ih =>
      intro i hi
      rw [List.range_succ, List.map_append, lookupA_append]
      rcases Nat.lt_or_ge i n with h | h
      · rw [ih i h]
      · have hin : i = n := by omega
        subst hin
        rw [lookupA_range_map_ge g i i (Nat.le_refl i)]
        simp [lookupA]

/-- Updating one key leaves lookups of other keys unchanged. -/
theorem lookupA_updateA_ne {α β : Type} [DecidableEq α] (k k' : α) (f : β → β)
    (m : List (α × β)) (h : k' ≠ k) :
    lookupA (updateA k' f m) k = lookupA m k := by
  induction m with
  | nil => rfl
  | cons p rest ih =>
      obtain ⟨a, b⟩ := p
      simp only [updateA, List.map_cons] at ih ⊢
      by_cases ha : a = k'
      · subst ha
        rw [if_pos rfl]
        simp only [lookupA, if_neg h]
        exact ih
      · rw [if_neg ha]
        simp only [lookupA]
        by_cases hak : a = k
        · rw [if_pos hak, if_pos hak]
        · rw [if_neg hak, if_neg hak]
          exact ih

/-- A pointwise update never changes whether a key is present. -/
theorem lookupA_updateA_isSome {α β : Type} [DecidableEq α] (k k' : α)
    (f : β → β) (m : List (α × β)) :
    (lookupA (updateA k' f m) k).isSome = (lookupA m k).isSome := by
  by_cases h : k' = k
  · subst h
    rw [lookupA_updateA]
    cases lookupA m k' <;> rfl
  · rw [lookupA_updateA_ne k k' f m h]

/-- Inserting a binding makes its key look up to the new value. -/
theorem lookupA_insertA_self {α β : Type} [DecidableEq α] (k : α) (v : β)
    (m : List (α × β)) :
    lookupA (insertA k v m) k = some v := by
  simp [insertA, lookupA]

/-- Deleting a key removes every binding of it. -/
theorem lookupA_eraseA {α β : Type} [DecidableEq α] (k : α)
    (m : List (α × β)) :
    lookupA (eraseA k m) k = none := by
  induction m with
  | nil => rfl
  | cons p rest ih =>
      obtain ⟨a, b⟩ := p
      simp only [eraseA, List.filter_cons] at ih ⊢
      by_cases h : a = k
      · subst h
        simpa using ih
      · simpa [lookupA, h] using ih

/-- The chunk size is positive. -/
theorem ChunkSize_pos : 0 < ChunkSize := by decide

/-- Every chunk of the fresh manifest built by `startResumableUpload` is
recorded `completed = false`. -/
theorem buildConfig_chunks_incomplete (sessionID fileName : String)
    (fileSize : Nat) (fileHash : String) (i : Nat) (ci : ChunkInfo)
    (h : lookupA (buildConfig sessionID fileName fileSize fileHash).chunks i
        = some ci) :
    ci.completed = false := by
  unfold buildConfig at h
  rcases Nat.lt_or_ge i (totalChunksOf fileSize) with hlt | hge
  · rw [lookupA_range_map _ _ _ hlt] at h
    cases h
    rfl
  · rw [lookupA_range_map_ge _ _ _ hge] at h
    cases h

/-- The chunk count computed by `startResumableUpload` is the ceiling of
`fileSize / ChunkSize`, characterised by its two bounds. -/
theorem totalChunks_bounds (fileSize : Nat) (hpos : 0 < fileSize) :
    ChunkSize * (totalChunksOf fileSize - 1) < fileSize ∧
      fileSize ≤ ChunkSize * totalChunksOf fileSize := by
  unfold totalChunksOf ChunkSize at *
  omega

/-- The last chunk's size is below `ChunkSize` exactly when the file size is
not a multiple of it. -/
theorem lastChunk_lt_iff (fileSize : Nat) (hpos : 0 < fileSize) :
    fileSize - (totalChunksOf fileSize - 1) * ChunkSize < ChunkSize ↔
      fileSize % ChunkSize ≠ 0 := by
  unfold totalChunksOf ChunkSize at *
  omega

/-- Behaviour of `startResumableUpload` with all disk operations succeeding
when the file is not yet registered: fresh manifest, zero-filled backing
file, full missing list. -/
theorem startResumableUpload_fresh (st : UploadState)
    (sessionID fileName : String) (fileSize : Nat) (fileHash : String)
    (hnot : lookupA st.receivedFiles fileName = none) :
    startResumableUpload StartDisk.allOk st sessionID fileName fileSize fileHash =
      (StartResult.started
        { chunkSize := ChunkSize
          totalChunks := totalChunksOf fileSize
          missingChunks := List.range (totalChunksOf fileSize)
          configPath := configPathOf sessionID fileName },
       { st with
         manifest := some (buildConfig sessionID fileName fileSize fileHash)
         backing := List.replicate fileSize 0 }) := by
  unfold startResumableUpload
  rw [hnot]
  rfl

/-- Projection: the chunk response is a 200 whose body carries
`completed = true` (the response that announces whole-upload completion). -/
def ChunkResult.isCompletedOk : ChunkResult → Bool
  | .ok resp => resp.completed
  | _ => false

/-! ## Claims -/

/-- Claim C1, counterexample. A single-chunk upload is driven to the
COMPLETE state through the code's own operations (`start` then the one
`chunk`, all disk operations succeeding): the file is registered in
`receivedFiles` and the manifest has been deleted on success. A subsequent
`complete` then returns 404 NotFound — not a 200 success — because
`completeUpload` loads the manifest before consulting `receivedFiles`. -/
theorem C1_counterexample :
    (lookupA ((uploadChunk (fun _ => "") ChunkDisk.allOk
        (startResumableUpload StartDisk.allOk ⟨[], none, []⟩ "s" "f" 3 "").2
        "f" 0 [1, 2, 3]).2).receivedFiles "f" = some ⟨"f", 3, "../temp/s_f"⟩)
    ∧ ((uploadChunk (fun _ => "") ChunkDisk.allOk
        (startResumableUpload StartDisk.allOk ⟨[], none, []⟩ "s" "f" 3 "").2
        "f" 0 [1, 2, 3]).2).manifest = none
    ∧ (completeUpload (fun _ => "") (fun _ => "")
        (uploadChunk (fun _ => "") ChunkDisk.allOk
          (startResumableUpload StartDisk.allOk ⟨[], none, []⟩ "s" "f" 3 "").2
          "f" 0 [1, 2, 3]).2 "f").1 = CompleteResult.notFound := by
  decide

/-- Claim C1, amended: once the upload is COMPLETE (the file is in
`receivedFiles`), `complete(s,f)` returns a 200 success only when the
manifest sidecar still exists (its best-effort deletion failed); when the
manifest is missing, `complete` returns 404 NotFound. Either way the state
is unchanged. -/
theorem C1_complete_once_complete (md5Hex sha256Hex : List Nat → String)
    (st : UploadState) (fileName : String) (info : FileInfo)
    (hreg : lookupA st.receivedFiles fileName = some info) :
    completeUpload md5Hex sha256Hex st fileName =
      (match st.manifest with
       | none => (CompleteResult.notFound, st)
       | some _ => (CompleteResult.alreadyDone info.size, st)) := by
  unfold completeUpload
  cases h : st.manifest with
  | none => rfl
  | some cfg => rw [hreg]

/-- Witness for `C1_complete_once_complete`. -/
theorem C1_complete_once_complete_witness :
    completeUpload (fun _ => "") (fun _ => "")
        ⟨[("f", ⟨"f", 3, "p"⟩)], none, [1, 2, 3]⟩ "f" =
      (CompleteResult.notFound, ⟨[("f", ⟨"f", 3, "p"⟩)], none, [1, 2, 3]⟩) :=
  C1_complete_once_complete (fun _ => "") (fun _ => "")
    ⟨[("f", ⟨"f", 3, "p"⟩)], none, [1, 2, 3]⟩ "f" ⟨"f", 3, "p"⟩ rfl

/-- Claim C2, counterexample. A two-chunk upload is OPEN with chunk 0
recorded `completed = true` (hash `"h"`) and chunk 1 missing, so its
current missing list is `[1]`. A second `start` call does not observe this
manifest: it returns the full missing list `[0, 1]` and replaces the
on-disk manifest with a fresh one in which chunk 0 is `completed = false`
again — the recorded per-chunk completed flags are not left unchanged. -/
theorem C2_counterexample :
    (let cfg0 := { buildConfig "s" "f" (ChunkSize + 3) "" with
        chunks := updateA 0 (fun ci => { ci with hash := "h", completed := true })
          (buildConfig "s" "f" (ChunkSize + 3) "").chunks };
     (lookupA cfg0.chunks 0 = some ⟨0, ChunkSize, "h", true, 0⟩)
     ∧ (lookupA cfg0.chunks 1 = some ⟨1, 3, "", false, ChunkSize⟩)
     ∧ ((startResumableUpload StartDisk.allOk ⟨[], some cfg0, []⟩
           "s" "f" (ChunkSize + 3) "").1 =
         StartResult.started ⟨ChunkSize, 2, [0, 1], configPathOf "s" "f"⟩)
     ∧ ((startResumableUpload StartDisk.allOk ⟨[], some cfg0, []⟩
           "s" "f" (ChunkSize + 3) "").2.manifest =
         some (buildConfig "s" "f" (ChunkSize + 3) ""))) := by
  decide

/-- Claim C2, amended: a second `start` while the upload is OPEN behaves
exactly like a first `start` — it does not observe the existing manifest;
it rebuilds a fresh manifest in which every chunk is `completed = false`
(discarding the recorded per-chunk completed flags), overwrites the
backing file with `fileSize` zero bytes, and returns the full missing list
`[0 .. totalChunks-1]`. -/
theorem C2_second_start_resets (st : UploadState) (sessionID fileName : String)
    (fileSize : Nat) (fileHash : String)
    (hnot : lookupA st.receivedFiles fileName = none) :
    (startResumableUpload StartDisk.allOk st sessionID fileName fileSize fileHash =
      (StartResult.started ⟨ChunkSize, totalChunksOf fileSize,
          List.range (totalChunksOf fileSize), configPathOf sessionID fileName⟩,
       { st with
         manifest := some (buildConfig sessionID fileName fileSize fileHash)
         backing := List.replicate fileSize 0 }))
    ∧ (∀ i ci,
        lookupA (buildConfig sessionID fileName fileSize fileHash).chunks i
            = some ci →
        ci.completed = false) :=
  ⟨startResumableUpload_fresh st sessionID fileName fileSize fileHash hnot,
   fun i ci h => buildConfig_chunks_incomplete sessionID fileName fileSize fileHash i ci h⟩

/-- Witness for `C2_second_start_resets`: a second start over an existing
OPEN one-chunk manifest for a 7-byte file. -/
theorem C2_second_start_resets_witness :
    (startResumableUpload StartDisk.allOk
        ⟨[], some (buildConfig "s" "g" 7 ""), []⟩ "s" "g" 7 "" =
      (StartResult.started ⟨ChunkSize, totalChunksOf 7,
          List.range (totalChunksOf 7), configPathOf "s" "g"⟩,
       ⟨[], some (buildConfig "s" "g" 7 ""), List.replicate 7 0⟩))
    ∧ (∀ i ci, lookupA (buildConfig "s" "g" 7 "").chunks i = some ci →
        ci.completed = false) :=
  C2_second_start_resets ⟨[], some (buildConfig "s" "g" 7 ""), []⟩ "s" "g" 7 "" rfl

/-- Claim C3, counterexample. `start` with `fileSize = MaxFileSize + 1`
(one byte above 100 GiB) is not rejected: the call takes the normal path,
returns the 200 started response and creates a manifest —
`startResumableUpload` contains no maximum-size check (`MaxFileSize` is
only used as the WebSocket read limit). -/
theorem C3_counterexample :
    ((startResumableUpload StartDisk.allOk ⟨[], none, []⟩ "s" "big"
        (MaxFileSize + 1) "").1.isStarted = true)
    ∧ ((startResumableUpload StartDisk.allOk ⟨[], none, []⟩ "s" "big"
        (MaxFileSize + 1) "").2.manifest.isSome = true) :=
  ⟨rfl, rfl⟩

/-- Claim C3, amended: `start` accepts a `fileSize` of exactly 100 GiB, and
also accepts every `fileSize` strictly greater than 100 GiB — it performs
no maximum-size check, so no size is rejected; the manifest is created in
both cases. -/
theorem C3_no_size_limit (st : UploadState) (sessionID fileName fileHash : String)
    (fileSize : Nat) (hnot : lookupA st.receivedFiles fileName = none)
    (hbig : MaxFileSize ≤ fileSize) :
    ((startResumableUpload StartDisk.allOk st sessionID fileName fileSize
        fileHash).1.isStarted = true)
    ∧ ((startResumableUpload StartDisk.allOk st sessionID fileName fileSize
        fileHash).2.manifest =
        some (buildConfig sessionID fileName fileSize fileHash)) := by
  rw [startResumableUpload_fresh st sessionID fileName fileSize fileHash hnot]
  exact ⟨rfl, rfl⟩

/-- Witness for `C3_no_size_limit` at exactly 100 GiB. -/
theorem C3_no_size_limit_witness :
    ((startResumableUpload StartDisk.allOk ⟨[], none, []⟩ "s" "f" MaxFileSize
        "").1.isStarted = true)
    ∧ ((startResumableUpload StartDisk.allOk ⟨[], none, []⟩ "s" "f" MaxFileSize
        "").2.manifest = some (buildConfig "s" "f" MaxFileSize "")) :=
  C3_no_size_limit ⟨[], none, []⟩ "s" "f" "" MaxFileSize rfl (Nat.le_refl _)

/-- Claim C4, counterexample. Same single-chunk scenario as for C1: the
first `chunk` call completes the whole upload (its response carries
`completed = true`) and deletes the manifest, so the
repeated identical `chunk` call returns 404 NotFound instead of a no-op
success — `chunk;chunk` is not equivalent to `chunk` for the chunk whose
first call completed the upload. -/
theorem C4_counterexample :
    ((uploadChunk (fun _ => "") ChunkDisk.allOk
        (startResumableUpload StartDisk.allOk ⟨[], none, []⟩ "s" "f" 3 "").2
        "f" 0 [1, 2, 3]).1.isCompletedOk = true)
    ∧ (uploadChunk (fun _ => "") ChunkDisk.allOk
        (uploadChunk (fun _ => "") ChunkDisk.allOk
          (startResumableUpload StartDisk.allOk ⟨[], none, []⟩ "s" "f" 3 "").2
          "f" 0 [1, 2, 3]).2
        "f" 0 [1, 2, 3]).1 = ChunkResult.notFound := by
  decide

/-- Claim C4, amended: while the manifest still exists, a `chunk` call on an
already-completed chunk performs no backing-file write and no manifest
change and returns a no-op 200 carrying the current progress (with
`completed = false` in the body), so repeating a non-final chunk is a
no-op; for the chunk whose first call completed the whole upload the
manifest is deleted on success and a repeated call returns 404 NotFound. -/
theorem C4_duplicate_chunk_noop (md5Hex : List Nat → String)
    (disk : ChunkDisk) (st : UploadState) (fileName : String) (i : Nat)
    (bytes : List Nat) (cfg : ResumableFileConfig) (ci : ChunkInfo)
    (hm : st.manifest = some cfg)
    (hc : lookupA cfg.chunks i = some ci)
    (hdone : ci.completed = true) :
    uploadChunk md5Hex disk st fileName i bytes =
      (ChunkResult.ok ⟨i, false, calculateProgress cfg⟩, st) := by
  unfold uploadChunk
  rw [hm]
  simp only [hc, hdone, if_pos]

/-- Witness for `C4_duplicate_chunk_noop`. -/
theorem C4_duplicate_chunk_noop_witness :
    uploadChunk (fun _ => "") ChunkDisk.allOk
        ⟨[], some ⟨"f", 3, "", ChunkSize, 1, [(0, ⟨0, 3, "h", true, 0⟩)], "p"⟩,
          [9, 9, 9]⟩ "f" 0 [1, 2, 3] =
      (ChunkResult.ok ⟨0, false,
          calculateProgress ⟨"f", 3, "", ChunkSize, 1,
            [(0, ⟨0, 3, "h", true, 0⟩)], "p"⟩⟩,
       ⟨[], some ⟨"f", 3, "", ChunkSize, 1, [(0, ⟨0, 3, "h", true, 0⟩)], "p"⟩,
          [9, 9, 9]⟩) :=
  C4_duplicate_chunk_noop (fun _ => "") ChunkDisk.allOk
    ⟨[], some ⟨"f", 3, "", ChunkSize, 1, [(0, ⟨0, 3, "h", true, 0⟩)], "p"⟩,
      [9, 9, 9]⟩ "f" 0 [1, 2, 3]
    ⟨"f", 3, "", ChunkSize, 1, [(0, ⟨0, 3, "h", true, 0⟩)], "p"⟩
    ⟨0, 3, "h", true, 0⟩ rfl rfl rfl

/-- Claim C5, counterexample. A single `history` lookup on a fresh session
ID inserts a zero-client session into the registry, and even `RemoveClient`
(the only teardown operation the registry has) leaves the entry in place —
the zero-client session is long-lived, with no teardown pending. -/
theorem C5_counterexample :
    (lookupA (getSessionHistory [] "s") "s" = some freshSession)
    ∧ freshSession.clients = 0
    ∧ (lookupA (RemoveClient (getSessionHistory [] "s") "s") "s"
        = some freshSession) := by
  decide

/-- Claim C5, amended: the registry retains zero-client sessions
indefinitely. Any lookup through `GetOrCreateSession` (history, download,
status, upload start, WebSocket connect) on an absent session ID inserts a
zero-client entry, and `RemoveClient` — which on last-leave cleans the
session's files and receiver state — never deletes a registry entry, so no
operation removes a zero-client session from the registry. -/
theorem C5_registry_retains_zero_client_sessions :
    (∀ (reg : Registry) (sessionID : String),
       lookupA reg sessionID = none →
       lookupA (GetOrCreateSession reg sessionID).2 sessionID = some freshSession
         ∧ freshSession.clients = 0)
    ∧ (∀ (reg : Registry) (sessionID k : String) (e : SessionEntry),
       lookupA reg k = some e →
       (lookupA (RemoveClient reg sessionID) k).isSome = true) := by
  constructor
  · intro reg sid h
    unfold GetOrCreateSession
    rw [h]
    exact ⟨by simp [insertA, lookupA], rfl⟩
  · intro reg sid k e h
    unfold RemoveClient
    cases hl : lookupA reg sid with
    | none => rw [h]; rfl
    | some s =>
        dsimp only
        by_cases hc : s.clients = 0
        · rw [if_pos hc, h]
          rfl
        · rw [if_neg hc]
          rw [lookupA_updateA_isSome]
          rw [h]
          rfl

/-- Witness for `C5_registry_retains_zero_client_sessions`. -/
theorem C5_registry_retains_zero_client_sessions_witness :
    (lookupA (GetOrCreateSession [] "w").2 "w" = some freshSession
      ∧ freshSession.clients = 0)
    ∧ (lookupA (RemoveClient [("w", freshSession)] "w") "w").isSome = true :=
  ⟨C5_registry_retains_zero_client_sessions.1 [] "w" rfl,
   C5_registry_retains_zero_client_sessions.2 [("w", freshSession)] "w" "w"
     freshSession rfl⟩

/-- Claim C6, confirmed: for `fileSize > 0`, the manifest built by `start`
has `totalChunks = ceil(fileSize / ChunkSize)` (stated as the Go formula
`(fileSize + ChunkSize - 1) / ChunkSize` together with the two bounds that
characterise the ceiling), chunk `i` sits at offset `i * ChunkSize` with
`completed = false`, every chunk except the last has size exactly
`ChunkSize`, the last has size `fileSize - (totalChunks-1) * ChunkSize`,
and that last size is strictly below `ChunkSize` exactly when `fileSize`
is not a multiple of `ChunkSize`. -/
theorem C6_manifest_shape (st : UploadState)
    (sessionID fileName fileHash : String) (fileSize : Nat)
    (hpos : 0 < fileSize)
    (hnot : lookupA st.receivedFiles fileName = none) :
    ((startResumableUpload StartDisk.allOk st sessionID fileName fileSize
        fileHash).2.manifest
      = some (buildConfig sessionID fileName fileSize fileHash))
    ∧ ((buildConfig sessionID fileName fileSize fileHash).totalChunks
        = (fileSize + ChunkSize - 1) / ChunkSize)
    ∧ (ChunkSize * (totalChunksOf fileSize - 1) < fileSize)
    ∧ (fileSize ≤ ChunkSize * totalChunksOf fileSize)
    ∧ (∀ i, i < totalChunksOf fileSize →
        lookupA (buildConfig sessionID fileName fileSize fileHash).chunks i
          = some (chunkInfoAt fileSize (totalChunksOf fileSize) i))
    ∧ (∀ i, i < totalChunksOf fileSize →
        (chunkInfoAt fileSize (totalChunksOf fileSize) i).offset = i * ChunkSize
        ∧ (chunkInfoAt fileSize (totalChunksOf fileSize) i).completed = false)
    ∧ (∀ i, i + 1 < totalChunksOf fileSize →
        (chunkInfoAt fileSize (totalChunksOf fileSize) i).size = ChunkSize)
    ∧ ((chunkInfoAt fileSize (totalChunksOf fileSize)
          (totalChunksOf fileSize - 1)).size
        = fileSize - (totalChunksOf fileSize - 1) * ChunkSize)
    ∧ ((chunkInfoAt fileSize (totalChunksOf fileSize)
          (totalChunksOf fileSize - 1)).size < ChunkSize
        ↔ fileSize % ChunkSize ≠ 0) := by
  refine ⟨?_, rfl, (totalChunks_bounds fileSize hpos).1,
    (totalChunks_bounds fileSize hpos).2, ?_, ?_, ?_, ?_, ?_⟩
  · rw [startResumableUpload_fresh st sessionID fileName fileSize fileHash hnot]
  · intro i hi
    unfold buildConfig
    exact lookupA_range_map _ _ _ hi
  · intro i _
    exact ⟨rfl, rfl⟩
  · intro i hi
    unfold chunkInfoAt
    rw [if_neg (by omega : ¬ i = totalChunksOf fileSize - 1)]
  · unfold chunkInfoAt
    rw [if_pos rfl]
  · unfold chunkInfoAt
    rw [if_pos rfl]
    exact lastChunk_lt_iff fileSize hpos

/-- Witness for `C6_manifest_shape` at a 12 MiB file (three chunks of
5 MiB, 5 MiB, 2 MiB). -/
theorem C6_manifest_shape_witness :
    ((startResumableUpload StartDisk.allOk ⟨[], none, []⟩ "s" "f"
        (12 * 1024 * 1024) "").2.manifest
      = some (buildConfig "s" "f" (12 * 1024 * 1024) ""))
    ∧ ((buildConfig "s" "f" (12 * 1024 * 1024) "").totalChunks
        = (12 * 1024 * 1024 + ChunkSize - 1) / ChunkSize)
    ∧ (ChunkSize * (totalChunksOf (12 * 1024 * 1024) - 1) < 12 * 1024 * 1024)
    ∧ (12 * 1024 * 1024 ≤ ChunkSize * totalChunksOf (12 * 1024 * 1024))
    ∧ (∀ i, i < totalChunksOf (12 * 1024 * 1024) →
        lookupA (buildConfig "s" "f" (12 * 1024 * 1024) "").chunks i
          = some (chunkInfoAt (12 * 1024 * 1024)
              (totalChunksOf (12 * 1024 * 1024)) i))
    ∧ (∀ i, i < totalChunksOf (12 * 1024 * 1024) →
        (chunkInfoAt (12 * 1024 * 1024) (totalChunksOf (12 * 1024 * 1024))
            i).offset = i * ChunkSize
        ∧ (chunkInfoAt (12 * 1024 * 1024) (totalChunksOf (12 * 1024 * 1024))
            i).completed = false)
    ∧ (∀ i, i + 1 < totalChunksOf (12 * 1024 * 1024) →
        (chunkInfoAt (12 * 1024 * 1024) (totalChunksOf (12 * 1024 * 1024))
            i).size = ChunkSize)
    ∧ ((chunkInfoAt (12 * 1024 * 1024) (totalChunksOf (12 * 1024 * 1024))
          (totalChunksOf (12 * 1024 * 1024) - 1)).size
        = 12 * 1024 * 1024 - (totalChunksOf (12 * 1024 * 1024) - 1) * ChunkSize)
    ∧ ((chunkInfoAt (12 * 1024 * 1024) (totalChunksOf (12 * 1024 * 1024))
          (totalChunksOf (12 * 1024 * 1024) - 1)).size < ChunkSize
        ↔ 12 * 1024 * 1024 % ChunkSize ≠ 0) :=
  C6_manifest_shape ⟨[], none, []⟩ "s" "f" "" (12 * 1024 * 1024)
    (by decide) rfl

/-- Claim C7, confirmed: when `fileName` is already present in the
session's `receivedFiles`, `start` returns the synthetic already-complete
response — `completed = true`, `missingChunks = []`, `totalChunks = 1`
with the single synthetic chunk `"0"` marked completed, progress 100 —
and the state is returned untouched: no new manifest is created and the
backing file is not modified. Holds for every disk-outcome combination
because the handler returns before any disk operation. -/
theorem C7_start_short_circuit (disk : StartDisk) (st : UploadState)
    (sessionID fileName fileHash : String) (fileSize : Nat) (info : FileInfo)
    (hreg : lookupA st.receivedFiles fileName = some info) :
    startResumableUpload disk st sessionID fileName fileSize fileHash =
      (StartResult.alreadyComplete
        { uploadID := sessionID
          fileName := fileName
          fileSize := info.size
          totalChunks := 1
          chunkSize := info.size
          chunkZeroCompleted := true
          tempFilePath := info.tempFilePath
          progress := 100
          missingChunks := []
          completed := true }, st) := by
  unfold startResumableUpload
  rw [hreg]

/-- Witness for `C7_start_short_circuit`. -/
theorem C7_start_short_circuit_witness :
    startResumableUpload StartDisk.allOk
        ⟨[("f", ⟨"f", 5, "p"⟩)], none, []⟩ "s" "f" 9 "" =
      (StartResult.alreadyComplete ⟨"s", "f", 5, 1, 5, true, "p", 100, [], true⟩,
       ⟨[("f", ⟨"f", 5, "p"⟩)], none, []⟩) :=
  C7_start_short_circuit StartDisk.allOk ⟨[("f", ⟨"f", 5, "p"⟩)], none, []⟩
    "s" "f" "" 9 ⟨"f", 5, "p"⟩ rfl

/-- Claim C8, confirmed: on a `complete` call whose manifest has every
chunk completed and whose `fileHash` is non-empty, the digest of the full
backing file is recomputed with MD5 when the presented hash has 32
characters and with SHA-256 when it has 64; a mismatch, or a hash of any
other length, makes `complete` fail with the integrity error and leaves
the state — in particular `receivedFiles` — unchanged, so the file is not
registered. -/
theorem C8_hash_verification (md5Hex sha256Hex : List Nat → String)
    (st : UploadState) (fileName : String) (cfg : ResumableFileConfig)
    (hm : st.manifest = some cfg)
    (hnot : lookupA st.receivedFiles fileName = none)
    (hall : (cfg.chunks.filter (fun p => !p.2.completed)).length = 0)
    (hhash : cfg.fileHash ≠ "") :
    ((cfg.fileHash.length = 32 → md5Hex st.backing ≠ cfg.fileHash →
        completeUpload md5Hex sha256Hex st fileName
          = (CompleteResult.integrityFailed, st))
     ∧ (cfg.fileHash.length = 32 → md5Hex st.backing = cfg.fileHash →
        (completeUpload md5Hex sha256Hex st fileName).1
          = CompleteResult.done cfg.fileSize)
     ∧ (cfg.fileHash.length = 64 → sha256Hex st.backing ≠ cfg.fileHash →
        completeUpload md5Hex sha256Hex st fileName
          = (CompleteResult.integrityFailed, st))
     ∧ (cfg.fileHash.length = 64 → sha256Hex st.backing = cfg.fileHash →
        (completeUpload md5Hex sha256Hex st fileName).1
          = CompleteResult.done cfg.fileSize)
     ∧ (cfg.fileHash.length ≠ 32 → cfg.fileHash.length ≠ 64 →
        completeUpload md5Hex sha256Hex st fileName
          = (CompleteResult.integrityFailed, st))) := by
  have hred : completeUpload md5Hex sha256Hex st fileName =
      (if cfg.fileHash ≠ "" ∧
          verifyFileHash md5Hex sha256Hex st.backing cfg.fileHash ≠ HashCheck.ok
       then (CompleteResult.integrityFailed, st)
       else (CompleteResult.done cfg.fileSize,
         { st with receivedFiles := (insertA fileName
             ⟨fileName, cfg.fileSize, cfg.tempFilePath⟩ st.receivedFiles) })) := by
    unfold completeUpload
    rw [hm]
    dsimp only
    rw [hnot]
    dsimp only
    rw [hall]
    rw [if_neg (by decide : ¬ (0 : Nat) > 0)]
  refine ⟨?_, ?_, ?_, ?_, ?_⟩
  · intro h32 hne
    have hv : verifyFileHash md5Hex sha256Hex st.backing cfg.fileHash
        = HashCheck.mismatch := by
      unfold verifyFileHash
      rw [if_pos h32, if_neg hne]
    rw [hred, if_pos ⟨hhash, by rw [hv]; exact fun h => HashCheck.noConfusion h⟩]
  · intro h32 heq
    have hv : verifyFileHash md5Hex sha256Hex st.backing cfg.fileHash
        = HashCheck.ok := by
      unfold verifyFileHash
      rw [if_pos h32, if_pos heq]
    rw [hred, if_neg (fun hcond => hcond.2 hv)]
  · intro h64 hne
    have h32 : ¬ cfg.fileHash.length = 32 := by omega
    have hv : verifyFileHash md5Hex sha256Hex st.backing cfg.fileHash
        = HashCheck.mismatch := by
      unfold verifyFileHash
      rw [if_neg h32, if_pos h64, if_neg hne]
    rw [hred, if_pos ⟨hhash, by rw [hv]; exact fun h => HashCheck.noConfusion h⟩]
  · intro h64 heq
    have h32 : ¬ cfg.fileHash.length = 32 := by omega
    have hv : verifyFileHash md5Hex sha256Hex st.backing cfg.fileHash
        = HashCheck.ok := by
      unfold verifyFileHash
      rw [if_neg h32, if_pos h64, if_pos heq]
    rw [hred, if_neg (fun hcond => hcond.2 hv)]
  · intro h32 h64
    have hv : verifyFileHash md5Hex sha256Hex st.backing cfg.fileHash
        = HashCheck.unsupportedLength := by
      unfold verifyFileHash
      rw [if_neg h32, if_neg h64]
    rw [hred, if_pos ⟨hhash, by rw [hv]; exact fun h => HashCheck.noConfusion h⟩]

/-- Witness for `C8_hash_verification`: a 32-character presented hash is
checked with the MD5 digest; the digests differ, so `complete` fails with
the integrity error and registers nothing. -/
theorem C8_hash_verification_witness :
    completeUpload (fun _ => "bbbbbbbbbbbbbbbbbbbbbbbbbbbbbbbb") (fun _ => "")
        ⟨[], some ⟨"f", 1, "aaaaaaaaaaaaaaaaaaaaaaaaaaaaaaaa", ChunkSize, 1,
            [(0, ⟨0, 1, "", true, 0⟩)], "p"⟩, [7]⟩ "f" =
      (CompleteResult.integrityFailed,
       ⟨[], some ⟨"f", 1, "aaaaaaaaaaaaaaaaaaaaaaaaaaaaaaaa", ChunkSize, 1,
            [(0, ⟨0, 1, "", true, 0⟩)], "p"⟩, [7]⟩) :=
  (C8_hash_verification (fun _ => "bbbbbbbbbbbbbbbbbbbbbbbbbbbbbbbb")
      (fun _ => "")
      ⟨[], some ⟨"f", 1, "aaaaaaaaaaaaaaaaaaaaaaaaaaaaaaaa", ChunkSize, 1,
          [(0, ⟨0, 1, "", true, 0⟩)], "p"⟩, [7]⟩ "f"
      ⟨"f", 1, "aaaaaaaaaaaaaaaaaaaaaaaaaaaaaaaa", ChunkSize, 1,
          [(0, ⟨0, 1, "", true, 0⟩)], "p"⟩
      rfl rfl rfl (by decide)).1 (by decide) (by decide)

/-- Claim C9, counterexample. A single-chunk upload is started through the
code's own `start`; the `chunk` call then fails at the manifest save with
`os.WriteFile`'s open having already truncated the sidecar before the
write failed. The on-disk manifest does not still record the chunk
`completed = false`: it no longer parses at all (`none` in the
load-observable view), and the repeated `chunk` call — which should find
the chunk recorded incomplete — gets 404 NotFound because the upload's
resumable record is gone. -/
theorem C9_counterexample :
    ((uploadChunk (fun _ => "") ⟨true, SaveOutcome.writeFailed, true⟩
        (startResumableUpload StartDisk.allOk ⟨[], none, []⟩ "s" "f" 3 "").2
        "f" 0 [1, 2, 3]).1 = ChunkResult.saveFailed)
    ∧ ((uploadChunk (fun _ => "") ⟨true, SaveOutcome.writeFailed, true⟩
        (startResumableUpload StartDisk.allOk ⟨[], none, []⟩ "s" "f" 3 "").2
        "f" 0 [1, 2, 3]).2.manifest = none)
    ∧ ((uploadChunk (fun _ => "") ChunkDisk.allOk
        (uploadChunk (fun _ => "") ⟨true, SaveOutcome.writeFailed, true⟩
          (startResumableUpload StartDisk.allOk ⟨[], none, []⟩ "s" "f" 3 "").2
          "f" 0 [1, 2, 3]).2
        "f" 0 [1, 2, 3]).1 = ChunkResult.notFound) := by
  decide

/-- Claim C9, amended: for a not-yet-completed chunk, a size mismatch or a
backing-file write failure leaves the on-disk manifest exactly as it was —
the chunk still recorded `completed = false` — but a manifest-save failure
preserves the old manifest only when the save's open failed; when the
write failed after `os.WriteFile`'s truncating open, the sidecar is
destroyed and subsequent loads fail NotFound. A 200 response is produced
only when the bytes had exactly the chunk's size, the positioned write at
the chunk's offset fully succeeded and was synced, and the manifest save
succeeded; the saved manifest then records the chunk `completed = true`
with the MD5 of the bytes. -/
theorem C9_chunk_write_atomicity (md5Hex : List Nat → String)
    (disk : ChunkDisk) (st : UploadState) (fileName : String) (i : Nat)
    (bytes : List Nat) (cfg : ResumableFileConfig) (ci : ChunkInfo)
    (hm : st.manifest = some cfg)
    (hc : lookupA cfg.chunks i = some ci)
    (hincomplete : ci.completed = false) :
    (((uploadChunk md5Hex disk st fileName i bytes).1 = ChunkResult.sizeMismatch
      ∨ (uploadChunk md5Hex disk st fileName i bytes).1 = ChunkResult.writeFailed) →
      (uploadChunk md5Hex disk st fileName i bytes).2.manifest = some cfg)
    ∧ (bytes.length ≠ ci.size →
        uploadChunk md5Hex disk st fileName i bytes
          = (ChunkResult.sizeMismatch, st))
    ∧ (bytes.length = ci.size → disk.writeOk = false →
        uploadChunk md5Hex disk st fileName i bytes
          = (ChunkResult.writeFailed, st))
    ∧ (bytes.length = ci.size → disk.writeOk = true →
        disk.save = SaveOutcome.openFailed →
        uploadChunk md5Hex disk st fileName i bytes
          = (ChunkResult.saveFailed,
             { st with manifest := some cfg
                       backing := (writeAt st.backing bytes ci.offset) }))
    ∧ (bytes.length = ci.size → disk.writeOk = true →
        disk.save = SaveOutcome.writeFailed →
        uploadChunk md5Hex disk st fileName i bytes
          = (ChunkResult.saveFailed,
             { st with manifest := none
                       backing := (writeAt st.backing bytes ci.offset) }))
    ∧ (∀ resp,
        (uploadChunk md5Hex disk st fileName i bytes).1 = ChunkResult.ok resp →
        bytes.length = ci.size ∧ disk.writeOk = true
        ∧ disk.save = SaveOutcome.ok
        ∧ ((uploadChunk md5Hex disk st fileName i bytes).2.backing
            = writeAt st.backing bytes ci.offset)
        ∧ (∀ cfg',
            (uploadChunk md5Hex disk st fileName i bytes).2.manifest = some cfg' →
            lookupA cfg'.chunks i
              = some { ci with hash := md5Hex bytes, completed := true })) := by
  unfold uploadChunk
  rw [hm]
  dsimp only
  rw [hc]
  dsimp only
  rw [hincomplete]
  rw [if_neg (by decide : ¬ (false = true))]
  refine ⟨?_, ?_, ?_, ?_, ?_, ?_⟩
  · intro herr
    by_cases hlen : bytes.length = ci.size
    · rw [if_neg (not_not_intro hlen)] at herr ⊢
      cases hw : disk.writeOk with
      | false =>
          rw [hw] at herr
          rw [if_pos rfl] at herr ⊢
          exact hm
      | true =>
          rw [hw] at herr
          rw [if_neg (by decide : ¬ (true = false))] at herr ⊢
          cases hsv : disk.save with
          | openFailed =>
              rw [hsv] at herr
              rw [if_pos (by decide :
                SaveOutcome.openFailed ≠ SaveOutcome.ok)] at herr
              rcases herr with h | h <;> simp at h
          | writeFailed =>
              rw [hsv] at herr
              rw [if_pos (by decide :
                SaveOutcome.writeFailed ≠ SaveOutcome.ok)] at herr
              rcases herr with h | h <;> simp at h
          | ok =>
              rw [hsv] at herr
              rw [if_neg (by decide :
                ¬ (SaveOutcome.ok ≠ SaveOutcome.ok))] at herr
              by_cases hall : allChunksCompleted { cfg with
                  chunks := updateA i
                    (fun c => { c with hash := md5Hex bytes, completed := true })
                    cfg.chunks } = true
              · rw [if_pos hall] at herr
                rcases herr with h | h <;> simp at h
              · rw [if_neg hall] at herr
                rcases herr with h | h <;> simp at h
    · rw [if_pos hlen] at herr ⊢
      exact hm
  · intro hne
    rw [if_pos hne]
  · intro hlen hw
    rw [if_neg (not_not_intro hlen), hw, if_pos rfl]
  · intro hlen hw hsv
    rw [if_neg (not_not_intro hlen), hw,
      if_neg (by decide : ¬ (true = false)), hsv,
      if_pos (by decide : SaveOutcome.openFailed ≠ SaveOutcome.ok)]
    rfl
  · intro hlen hw hsv
    rw [if_neg (not_not_intro hlen), hw,
      if_neg (by decide : ¬ (true = false)), hsv,
      if_pos (by decide : SaveOutcome.writeFailed ≠ SaveOutcome.ok)]
    rfl
  · intro resp hok
    by_cases hlen : bytes.length = ci.size
    · rw [if_neg (not_not_intro hlen)] at hok ⊢
      cases hw : disk.writeOk with
      | false =>
          rw [hw] at hok
          rw [if_pos rfl] at hok
          simp at hok
      | true =>
          rw [hw] at hok
          rw [if_neg (by decide : ¬ (true = false))] at hok ⊢
          cases hsv : disk.save with
          | openFailed =>
              rw [hsv] at hok
              rw [if_pos (by decide :
                SaveOutcome.openFailed ≠ SaveOutcome.ok)] at hok
              simp at hok
          | writeFailed =>
              rw [hsv] at hok
              rw [if_pos (by decide :
                SaveOutcome.writeFailed ≠ SaveOutcome.ok)] at hok
              simp at hok
          | ok =>
              rw [hsv] at hok
              rw [if_neg (by decide :
                ¬ (SaveOutcome.ok ≠ SaveOutcome.ok))] at hok ⊢
              refine ⟨hlen, rfl, rfl, ?_, ?_⟩
              · by_cases hall : allChunksCompleted { cfg with
                    chunks := updateA i
                      (fun c => { c with hash := md5Hex bytes, completed := true })
                      cfg.chunks } = true
                · rw [if_pos hall]
                · rw [if_neg hall]
              · intro cfg' hcfg'
                by_cases hall : allChunksCompleted { cfg with
                    chunks := updateA i
                      (fun c => { c with hash := md5Hex bytes, completed := true })
                      cfg.chunks } = true
                · rw [if_pos hall] at hcfg'
                  cases hrm : disk.removeOk with
                  | false =>
                      rw [hrm] at hcfg'
                      rw [if_neg (by decide : ¬ (false = true))] at hcfg'
                      cases hcfg'
                      rw [lookupA_updateA, hc]
                      rfl
                  | true =>
                      rw [hrm] at hcfg'
                      rw [if_pos rfl] at hcfg'
                      cases hcfg'
                · rw [if_neg hall] at hcfg'
                  cases hcfg'
                  rw [lookupA_updateA, hc]
                  rfl
    · rw [if_pos hlen] at hok
      simp at hok

/-- Witness for `C9_chunk_write_atomicity`: a manifest-save failure whose
open failed leaves the old sidecar intact (the chunk still recorded
`completed = false`) even though the backing write had succeeded. -/
theorem C9_chunk_write_atomicity_witness :
    uploadChunk (fun _ => "") ⟨true, SaveOutcome.openFailed, true⟩
        ⟨[], some ⟨"f", 3, "", ChunkSize, 1, [(0, ⟨0, 3, "", false, 0⟩)], "p"⟩,
          [0, 0, 0]⟩ "f" 0 [1, 2, 3] =
      (ChunkResult.saveFailed,
       ⟨[], some ⟨"f", 3, "", ChunkSize, 1, [(0, ⟨0, 3, "", false, 0⟩)], "p"⟩,
         writeAt [0, 0, 0] [1, 2, 3] 0⟩) :=
  (C9_chunk_write_atomicity (fun _ => "") ⟨true, SaveOutcome.openFailed, true⟩
      ⟨[], some ⟨"f", 3, "", ChunkSize, 1, [(0, ⟨0, 3, "", false, 0⟩)], "p"⟩,
        [0, 0, 0]⟩ "f" 0 [1, 2, 3]
      ⟨"f", 3, "", ChunkSize, 1, [(0, ⟨0, 3, "", false, 0⟩)], "p"⟩
      ⟨0, 3, "", false, 0⟩ rfl rfl rfl).2.2.2.1 rfl rfl rfl

/-- Claim C10, confirmed: on the WebSocket `file_chunk` path the receiver's
`ReceivedChunks` counter goes up by exactly one for every processed
message — the new in-memory chunk map and counter do not depend on whether
`CurrentChunk` was already present — and completion (registration into
`receivedFiles`, the `file` broadcast, and removal of the receiver)
triggers exactly when that message count reaches `TotalChunks` (or
`ceil(size / ChunkSize)` when `TotalChunks` is zero), regardless of which
indices the messages carried. The receiver is either the one already
stored for `msg.name` or, on the first message, the fresh receiver. -/
theorem C10_ws_chunk_counting (sessionID : String) (sess : WsSession)
    (msg : FileChunkMsg) (rf : ReceivingFile)
    (hrf : lookupA sess.receivingFiles msg.name = some rf
           ∨ (lookupA sess.receivingFiles msg.name = none
              ∧ rf = freshReceiver msg))
    (hname : rf.name = msg.name)
    (htc : msg.totalChunks = rf.totalChunks) :
    (let expected : Nat := if rf.totalChunks > 0 then rf.totalChunks
                           else (rf.size + ChunkSize - 1) / ChunkSize;
     let rf1 : ReceivingFile :=
       { rf with
         chunks := insertA msg.currentChunk msg.data rf.chunks
         receivedChunks := rf.receivedChunks + 1
         fileBytes := writeAt rf.fileBytes msg.data
           (msg.currentChunk * ChunkSize) };
     (rf.receivedChunks + 1 ≠ expected →
        (handleFileChunk sessionID sess msg).broadcastFile = false
        ∧ lookupA (handleFileChunk sessionID sess msg).session.receivingFiles
            msg.name = some rf1)
     ∧ (rf.receivedChunks + 1 = expected →
        (handleFileChunk sessionID sess msg).broadcastFile = true
        ∧ lookupA (handleFileChunk sessionID sess msg).session.receivedFiles
            msg.name
          = some ⟨msg.name, rf.size, tempFilePathOf sessionID msg.name⟩
        ∧ lookupA (handleFileChunk sessionID sess msg).session.receivingFiles
            msg.name = none)) := by
  have hrf0 : (match lookupA sess.receivingFiles msg.name with
      | none => freshReceiver msg
      | some r =>
          if r.totalChunks = 0 ∧ msg.totalChunks > 0 then
            { r with totalChunks := msg.totalChunks }
          else r) = rf := by
    rcases hrf with h | ⟨h, hfresh⟩
    · rw [h]
      dsimp only
      rw [if_neg]
      rintro ⟨h1, h2⟩
      rw [htc, h1] at h2
      exact Nat.lt_irrefl 0 h2
    · rw [h, hfresh]
  unfold handleFileChunk
  rw [hrf0]
  dsimp only
  rw [hname]
  set e : Nat := (if rf.totalChunks > 0 then rf.totalChunks
      else (rf.size + ChunkSize - 1) / ChunkSize) with he
  by_cases hcount : rf.receivedChunks + 1 = e
  · rw [if_pos ⟨hcount, Nat.succ_pos rf.receivedChunks⟩]
    refine ⟨fun hne => absurd hcount hne, fun _ => ⟨rfl, ?_, ?_⟩⟩
    · rw [lookupA_insertA_self]
    · rw [lookupA_eraseA]
  · rw [if_neg (fun hand => hcount hand.1)]
    refine ⟨fun _ => ⟨rfl, ?_⟩, fun heq => absurd heq hcount⟩
    rw [lookupA_insertA_self]

/-- Witness for `C10_ws_chunk_counting`: the receiver has already counted
one message (for index 0) out of `totalChunks = 2`; the next message
carries the duplicate index 0, yet the count reaches 2 and completion
fires — the file is registered and the receiver removed even though index
1 was never received. -/
theorem C10_ws_chunk_counting_witness :
    (handleFileChunk "s"
        ⟨[("d", ⟨"d", 7, [(0, [5])], 2, 1, [5, 0, 0, 0, 0, 0, 0]⟩)], []⟩
        ⟨"d", 7, [6], 2, 0⟩).broadcastFile = true
    ∧ lookupA (handleFileChunk "s"
        ⟨[("d", ⟨"d", 7, [(0, [5])], 2, 1, [5, 0, 0, 0, 0, 0, 0]⟩)], []⟩
        ⟨"d", 7, [6], 2, 0⟩).session.receivedFiles "d"
      = some ⟨"d", 7, tempFilePathOf "s" "d"⟩
    ∧ lookupA (handleFileChunk "s"
        ⟨[("d", ⟨"d", 7, [(0, [5])], 2, 1, [5, 0, 0, 0, 0, 0, 0]⟩)], []⟩
        ⟨"d", 7, [6], 2, 0⟩).session.receivingFiles "d" = none :=
  (C10_ws_chunk_counting "s"
      ⟨[("d", ⟨"d", 7, [(0, [5])], 2, 1, [5, 0, 0, 0, 0, 0, 0]⟩)], []⟩
      ⟨"d", 7, [6], 2, 0⟩ ⟨"d", 7, [(0, [5])], 2, 1, [5, 0, 0, 0, 0, 0, 0]⟩
      (Or.inl rfl) rfl rfl).2 (by decide)

end LFTransfer

